import Mathlib

/-!
Shallow embedding of the SpeakEasy-AI data pipeline
(`trainer/data/data_utils.py`), model restore policy
(`trainer/model/model_utils.py`) and HTTP boundary (`server.py`),
together with theorems settling the specification claims.

Python strings are Lean `String`s, Python lists are Lean `List`s,
machine-independent ints are `Nat`.  The file system is an association
list from path to file lines; fallible operations return `Except`.
-/

/-! ## Python string primitives -/

/-- Whitespace characters recognised by Python str.strip and str.split:
space, tab, newline, carriage return, form feed, vertical tab. -/
def pyIsSpace (c : Char) : Bool :=
  c.toNat = 32 || c.toNat = 9 || c.toNat = 10 || c.toNat = 13 || c.toNat = 12 || c.toNat = 11

/-- Python sentence.strip: drop leading and trailing whitespace. -/
def pyStrip (s : String) : String :=
  String.mk (((s.data.dropWhile pyIsSpace).reverse.dropWhile pyIsSpace).reverse)

/-- Python str.split with no argument: split on runs of whitespace,
discarding empty fragments.  First argument is the remaining input,
second the current fragment accumulated in reverse. -/
def wsSplit : List Char → List Char → List (List Char)
  | [], acc => if acc.isEmpty then [] else [acc.reverse]
  | c :: cs, acc =>
    if pyIsSpace c then
      if acc.isEmpty then wsSplit cs [] else acc.reverse :: wsSplit cs []
    else wsSplit cs (c :: acc)

/-- The characters of the `_WORD_SPLIT` character class:
period, comma, exclamation mark, question mark, double quote,
single quote, colon, semicolon, right paren, left paren. -/
def isWordSplitChar (c : Char) : Bool :=
  c.toNat = 46 || c.toNat = 44 || c.toNat = 33 || c.toNat = 63 || c.toNat = 34 ||
  c.toNat = 39 || c.toNat = 58 || c.toNat = 59 || c.toNat = 41 || c.toNat = 40

/-- Python re.split over pattern `([.,!?"\x27:;)(])`: because the pattern is a
capturing group, the separator characters themselves appear in the output,
and empty pieces appear between adjacent separators.  First argument is the
remaining input, second the current piece accumulated in reverse. -/
def wordSplit : List Char → List Char → List String
  | [], acc => [String.mk acc.reverse]
  | c :: cs, acc =>
    if isWordSplitChar c then
      String.mk acc.reverse :: String.mk [c] :: wordSplit cs []
    else wordSplit cs (c :: acc)

/-! ## Tokenizer (`basic_tokenizer`) -/

/-- The dynamic return value of `basic_tokenizer`: in the sentinel branch the
Python function returns the bare stripped string, otherwise a list of words. -/
inductive TokenizerResult
  | sentinel (s : String)
  | words (ws : List String)
deriving DecidableEq

/-- `basic_tokenizer(sentence)`: if the stripped sentence is exactly
the literal breakHerePlease, return the stripped string itself; otherwise
split on whitespace, split each fragment at the `_WORD_SPLIT` characters
(keeping them, since the regex group captures), and drop empty pieces. -/
def basic_tokenizer (sentence : String) : TokenizerResult :=
  let stripped := pyStrip sentence
  if stripped = "breakHerePlease" then TokenizerResult.sentinel stripped
  else TokenizerResult.words
    (((wsSplit stripped.data []).map (fun f => wordSplit f [])).flatten.filter
      (fun w => w ≠ ""))

/-! ## Digit normalization -/

/-- The substitution `re.sub(_DIGIT_RE, "0", w)` used by
`sentence_to_token_ids`: every digit becomes the single character 0. -/
def normalizeDigits0 (w : String) : String :=
  String.mk (w.data.map (fun c => if c.isDigit then Char.ofNat 48 else c))

/-- The substitution `re.sub(_DIGIT_RE, "100", w)` used by
`create_vocabulary`: every digit becomes the three characters 1, 0, 0. -/
def normalizeDigits100 (w : String) : String :=
  String.mk (w.data.flatMap (fun c =>
    if c.isDigit then [Char.ofNat 49, Char.ofNat 48, Char.ofNat 48] else [c]))

/-! ## Special vocabulary symbols -/

/-- `_START_VOCAB`: the reserved symbols placed at the head of every
vocabulary, in order PAD, GO, EOS, UNK. -/
def START_VOCAB : List String := ["_PAD", "_GO", "_EOS", "_UNK"]

/-- Reserved id of the padding symbol. -/
def PAD_ID : Nat := 0

/-- Reserved id of the go symbol. -/
def GO_ID : Nat := 1

/-- Reserved id of the end-of-sentence symbol. -/
def EOS_ID : Nat := 2

/-- Reserved id of the unknown-token symbol. -/
def UNK_ID : Nat := 3

/-! ## File system model

The relevant gfile operations are modelled over an association list from
path to the list of lines of the file; a write prepends, a read returns
the most recent write. -/

abbrev FS := List (String × List String)

/-- `gfile.Exists(p)`. -/
def fsExists (fs : FS) (p : String) : Bool := fs.any (fun e => e.1 = p)

/-- Read the lines of the file at `p`, if it exists. -/
def fsRead (fs : FS) (p : String) : Option (List String) :=
  (fs.find? (fun e => e.1 = p)).map Prod.snd

/-- Write (or overwrite) the file at `p` with lines `c`. -/
def fsWrite (fs : FS) (p : String) (c : List String) : FS := (p, c) :: fs

/-! ## Python-level error values -/

/-- The exceptions the embedded functions can raise. -/
inductive PyError
  | valueError (msg : String) (arg : String)
  | notFoundError (path : String)
  | typeError (msg : String)
deriving DecidableEq

/-! ## Vocabulary construction (`create_vocabulary`) -/

/-- Python iteration `for w in tokens` over the value returned by
`basic_tokenizer`: iterating a list yields its words, while iterating the
bare string of the sentinel branch yields its characters one by one. -/
def tokenIter : TokenizerResult → List String
  | TokenizerResult.sentinel s => s.data.map (fun c => String.mk [c])
  | TokenizerResult.words ws => ws

/-- One `vocab[word] += 1` / `vocab[word] = 1` step on the count table,
which is kept in dict insertion order (first occurrence first). -/
def bump : List (String × Nat) → String → List (String × Nat)
  | [], w => [(w, 1)]
  | (x, n) :: rest, w =>
    if x = w then (x, n + 1) :: rest else (x, n) :: bump rest w

/-- The count table built by the scanning loop of `create_vocabulary`:
each line is tokenized and each token (digit-normalized with the "100"
placeholder when `normalize_digits` is set) is counted. -/
def countCorpus (lines : List String) (normalize_digits : Bool) : List (String × Nat) :=
  lines.foldl (fun vocab line =>
    (tokenIter (basic_tokenizer line)).foldl (fun v w =>
      bump v (if normalize_digits then normalizeDigits100 w else w)) vocab) []

/-- Stable insertion of one entry into a count-descending list:
an entry moves past strictly smaller counts only, so entries with equal
counts keep their original relative order, matching Python sorted. -/
def insertByCountDesc (p : String × Nat) : List (String × Nat) → List (String × Nat)
  | [] => [p]
  | q :: qs => if p.2 ≤ q.2 then q :: insertByCountDesc p qs else p :: q :: qs

/-- `sorted(vocab, key=vocab.get, reverse=True)`: stable sort of the count
table by descending count. -/
def sortByCountDesc (l : List (String × Nat)) : List (String × Nat) :=
  l.foldl (fun acc p => insertByCountDesc p acc) []

/-- The list of lines `create_vocabulary` writes to `vocabulary_path`:
the reserved symbols followed by the corpus tokens in descending count
order, truncated to `max_vocabulary_size` when longer. -/
def create_vocab_list (lines : List String) (max_vocabulary_size : Nat)
    (normalize_digits : Bool) : List String :=
  let vocab_list := START_VOCAB ++ (sortByCountDesc (countCorpus lines normalize_digits)).map Prod.fst
  if max_vocabulary_size < vocab_list.length then vocab_list.take max_vocabulary_size
  else vocab_list

/-- `create_vocabulary(vocabulary_path, data_path, max_vocabulary_size,
normalize_digits)`: if the vocabulary file already exists nothing happens;
otherwise the corpus at `data_path` is counted, the side file at
`vocabulary_path + 'complete'` receives every token with its count in
descending count order, and the vocabulary file receives the (possibly
truncated) vocabulary list.  `none` models the gfile error when the data
file is missing. -/
def create_vocabulary (fs : FS) (vocabulary_path data_path : String)
    (max_vocabulary_size : Nat) (normalize_digits : Bool) : Option FS :=
  if fsExists fs vocabulary_path then some fs
  else
    match fsRead fs data_path with
    | none => none
    | some lines =>
      let sorted := sortByCountDesc (countCorpus lines normalize_digits)
      let fs1 := fsWrite fs (vocabulary_path ++ "complete")
        (sorted.map (fun p => p.1 ++ ":" ++ toString p.2))
      some (fsWrite fs1 vocabulary_path
        (create_vocab_list lines max_vocabulary_size normalize_digits))

/-! ## Vocabulary loading (`initialize_vocabulary`) -/

/-- Lookup in the dict `initialize_vocabulary` builds by
`dict((x, y) for (y, x) in enumerate(rev_vocab))`: later pairs overwrite
earlier ones, so a token maps to the index of its last occurrence in
`rev_vocab`, and tokens absent from `rev_vocab` are not keys. -/
def vocabGet : List String → String → Option Nat
  | [], _ => none
  | x :: xs, w =>
    match vocabGet xs w with
    | some i => some (i + 1)
    | none => if x = w then some 0 else none

/-- `initialize_vocabulary(vocabulary_path)`: if the file exists, return
the reversed vocabulary (its stripped lines; the dict half of the returned
pair is `vocabGet` over it), otherwise raise
`ValueError("Vocabulary file %s not found.", vocabulary_path)`. -/
def initialize_vocabulary (fs : FS) (vocabulary_path : String) :
    Except PyError (List String) :=
  match fsRead fs vocabulary_path with
  | some lines => Except.ok (lines.map pyStrip)
  | none => Except.error (PyError.valueError "Vocabulary file %s not found." vocabulary_path)

/-! ## Sentence encoding (`sentence_to_token_ids`) -/

/-- An element of the list `sentence_to_token_ids` returns: normally an
int token id, but the raw string itself in the sentinel branch. -/
inductive PyTok
  | str (s : String)
  | id (n : Nat)
deriving DecidableEq

/-- `vocabulary.get(w, UNK_ID)` after the optional digit normalization
with the "0" placeholder. -/
def encodeToken (vocabulary : List String) (w : String) (normalize_digits : Bool) : Nat :=
  if normalize_digits then (vocabGet vocabulary (normalizeDigits0 w)).getD UNK_ID
  else (vocabGet vocabulary w).getD UNK_ID

/-- `sentence_to_token_ids(sentence, vocabulary, tokenizer,
normalize_digits)`.  `vocabulary` is the reversed vocabulary list; the
dict lookup is `vocabGet` over it.  The `tokenizer` slot models a Python
callable-or-falsy argument: `none` (falsy) selects `basic_tokenizer`.
When the tokenizer returned the bare sentinel string, the equality check
`words == 'breakHerePlease'` succeeds and the string is returned inside a
one-element list; a bare non-sentinel string would be iterated character
by character by the final comprehension. -/
def sentence_to_token_ids (sentence : String) (vocabulary : List String)
    (tokenizer : Option (String → TokenizerResult)) (normalize_digits : Bool) :
    List PyTok :=
  let words := match tokenizer with
    | some t => t sentence
    | none => basic_tokenizer sentence
  match words with
  | TokenizerResult.sentinel s =>
    if s = "breakHerePlease" then [PyTok.str s]
    else s.data.map (fun c => PyTok.id (encodeToken vocabulary (String.mk [c]) normalize_digits))
  | TokenizerResult.words ws =>
    ws.map (fun w => PyTok.id (encodeToken vocabulary w normalize_digits))

/-! ## Corpus encoding (`data_to_token_ids`) -/

/-- `str(tok)` as written to the target file. -/
def pyTokStr : PyTok → String
  | PyTok.str s => s
  | PyTok.id n => toString n

/-- The per-line call `sentence_to_token_ids(line, vocab, normalize_digits)`
made by `data_to_token_ids` with its default `normalize_digits=False`: the
flag is passed positionally into the `tokenizer` slot, where `False` is
falsy, so `basic_tokenizer` is used and `sentence_to_token_ids` keeps its
own default `normalize_digits=True`. -/
def data_to_token_ids_line (line : String) (vocabulary : List String) : List PyTok :=
  sentence_to_token_ids line vocabulary none true

/-- `data_to_token_ids(data_path, target_path, vocabulary_path,
normalize_digits)`: skipped when the target exists; otherwise the
vocabulary is loaded first (propagating its ValueError), the data file is
opened (a missing data file is a gfile NotFoundError), and each line is
encoded by `data_to_token_ids_line` and written space-joined.  Passing
`normalize_digits=True` would place the truthy bool in the tokenizer slot
and the first line would raise a TypeError when calling it. -/
def data_to_token_ids (fs : FS) (data_path target_path vocabulary_path : String)
    (normalize_digits : Bool) : Except PyError FS :=
  if fsExists fs target_path then Except.ok fs
  else
    match initialize_vocabulary fs vocabulary_path with
    | Except.error e => Except.error e
    | Except.ok vocab =>
      match fsRead fs data_path with
      | none => Except.error (PyError.notFoundError data_path)
      | some lines =>
        if normalize_digits && !lines.isEmpty then
          Except.error (PyError.typeError "bool object is not callable")
        else
          Except.ok (fsWrite fs target_path (lines.map (fun line =>
            String.intercalate " " ((data_to_token_ids_line line vocab).map pyTokStr))))

/-! ## Model restore policy (`create_model`) -/

/-- The three ways `create_model` can set the model parameters. -/
inductive InitAction
  | restoreFrom (path : String)
  | restoreCheckpoint (path : String)
  | freshInit
deriving DecidableEq

/-- Python truthiness of an optional string parameter: None and the empty
string are falsy. -/
def pyTruthyStr : Option String → Bool
  | none => false
  | some s => !(s = "")

/-- The parameter-initialization decision of `create_model`:
`restore_model` is `params.restore_model`, `ckpt` is the
`model_checkpoint_path` of `tf.train.get_checkpoint_state(params.train_dir)`
(or `none` when there is no checkpoint state).  If `params.restore_model`
is truthy the saver restores from it unconditionally; otherwise, if a
checkpoint state exists and its checkpoint file exists, the saver restores
from it; otherwise all variables are freshly initialized. -/
def create_model_action (restore_model : Option String) (fs : FS)
    (ckpt : Option String) : InitAction :=
  if pyTruthyStr restore_model then InitAction.restoreFrom (restore_model.getD "")
  else
    match ckpt with
    | some cp =>
      if fsExists fs cp then InitAction.restoreCheckpoint cp else InitAction.freshInit
    | none => InitAction.freshInit

/-! ## HTTP boundary (`generate_response` in server.py) -/

/-- The observable outcome of the `/message` handler: a Flask abort with
a status code (the abort 418 outside the try block reaches the client),
a 200 response with content, or the 500 response built by the bare except
clause. -/
inductive Resp
  | abort (code : Nat)
  | ok (body : String)
  | serverError (err : String)
deriving DecidableEq

/-- `request.json['message']` style lookup in a JSON object modelled as an
association list. -/
def jsonGet (j : List (String × String)) (k : String) : Option String :=
  (j.find? (fun e => e.1 = k)).map Prod.snd

/-- `generate_response()`: `marvin` is the global Marvin (None until
`initialize` finishes), `reqJson` is `request.json` (`none` for a missing
or empty body, which are both falsy).  When Marvin is not loaded the
handler aborts with 418 before entering the try block.  Inside the try
block, `abort(400)` raises an HTTPException that the bare except clause
catches, so a missing or message-less body actually yields the 500
response; a successful `Marvin.respond` yields a 200 response and an
exception from it yields the 500 response. -/
def generate_response (marvin : Option (String → Except String String))
    (reqJson : Option (List (String × String))) : Resp :=
  match marvin with
  | none => Resp.abort 418
  | some respond =>
    match reqJson with
    | none => Resp.serverError "HTTPException"
    | some j =>
      if j.isEmpty then Resp.serverError "HTTPException"
      else
        match jsonGet j "message" with
        | none => Resp.serverError "HTTPException"
        | some msg =>
          match respond msg with
          | Except.ok r => Resp.ok r
          | Except.error e => Resp.serverError e

/-! ## Helper lemmas -/

theorem vocabGet_getElem? (rv : List String) (w : String) (i : Nat)
    (h : vocabGet rv w = some i) : rv[i]? = some w := by
  induction rv generalizing i with
  | nil => simp [vocabGet] at h
  | cons x xs ih =>
    unfold vocabGet at h
    cases hx : vocabGet xs w with
    | some j =>
      rw [hx] at h
      simp at h
      subst h
      simpa using ih j hx
    | none =>
      rw [hx] at h
      by_cases hxw : x = w
      · simp [hxw] at h
        subst h
        simp [hxw]
      · simp [hxw] at h

theorem vocabGet_mem (rv : List String) (w : String) (h : w ∈ rv) :
    ∃ i, vocabGet rv w = some i := by
  induction rv with
  | nil => simp at h
  | cons x xs ih =>
    cases hx : vocabGet xs w with
    | some j => exact ⟨j + 1, by unfold vocabGet; rw [hx]⟩
    | none =>
      have hxw : x = w := by
        rcases List.mem_cons.mp h with h1 | h2
        · exact h1.symm
        · obtain ⟨j, hj⟩ := ih h2
          rw [hj] at hx
          cases hx
      exact ⟨0, by unfold vocabGet; rw [hx]; simp [hxw]⟩

theorem vocabGet_eq_none (rv : List String) (w : String) (h : ¬ w ∈ rv) :
    vocabGet rv w = none := by
  induction rv with
  | nil => rfl
  | cons x xs ih =>
    simp at h
    have hx : ¬ x = w := fun he => h.1 he.symm
    unfold vocabGet
    rw [ih h.2]
    simp [hx]

theorem normalizeDigits0_eq_self (w : String)
    (h : w.data.all (fun c => !c.isDigit) = true) : normalizeDigits0 w = w := by
  obtain ⟨l⟩ := w
  simp only [List.all_eq_true] at h
  unfold normalizeDigits0
  congr 1
  · show l.map _ = l
    induction l with
    | nil => rfl
    | cons c cs ih =>
      have hc := h c (List.mem_cons_self c cs)
      simp at hc
      simp [hc]
      exact ih (fun d hd => h d (List.mem_cons_of_mem c hd))

theorem digitRepl_length_le (l : List Char) :
    l.length ≤ (l.flatMap (fun c =>
      if c.isDigit then [Char.ofNat 49, Char.ofNat 48, Char.ofNat 48] else [c])).length := by
  induction l with
  | nil => simp
  | cons c cs ih =>
    rw [List.flatMap_cons]
    by_cases hc : c.isDigit = true
    · rw [if_pos hc]
      simp only [List.length_append, List.length_cons, List.length_nil]
      omega
    · rw [if_neg hc]
      simp only [List.length_append, List.length_cons, List.length_nil]
      omega

theorem digitRepl_length_lt (l : List Char) (h : l.any (fun c => c.isDigit) = true) :
    l.length < (l.flatMap (fun c =>
      if c.isDigit then [Char.ofNat 49, Char.ofNat 48, Char.ofNat 48] else [c])).length := by
  induction l with
  | nil => simp at h
  | cons c cs ih =>
    rw [List.flatMap_cons]
    by_cases hc : c.isDigit = true
    · have hle := digitRepl_length_le cs
      rw [if_pos hc]
      simp only [List.length_append, List.length_cons, List.length_nil]
      omega
    · rw [List.any_cons] at h
      have h2 : cs.any (fun c => c.isDigit) = true := by
        rcases Bool.or_eq_true_iff.mp h with h1 | h1
        · exact absurd h1 hc
        · exact h1
      have := ih h2
      rw [if_neg hc]
      simp only [List.length_append, List.length_cons, List.length_nil]
      omega

theorem fsRead_eq_none_iff (fs : FS) (p : String) :
    fsRead fs p = none ↔ fsExists fs p = false := by
  induction fs with
  | nil => simp [fsRead, fsExists]
  | cons e rest ih =>
    by_cases he : e.1 = p
    · simp [fsRead, fsExists, List.find?_cons, List.any_cons, he]
    · simp [fsRead, fsExists, List.find?_cons, List.any_cons, he]

/-! ## Claim theorems -/

/-- C3: the digit-normalization placeholder used when building the
vocabulary differs from the one used when encoding sentences: for every
token containing a digit, the "100"-placeholder form counted by
`create_vocabulary` is a different string from the "0"-placeholder form
that `sentence_to_token_ids` looks up, so the token's encoded lookup key
misses a vocabulary holding its counted form (it falls to `UNK_ID`). -/
theorem c3_inconsistent_digit_normalization (w : String)
    (hd : w.data.any (fun c => c.isDigit) = true) :
    normalizeDigits100 w ≠ normalizeDigits0 w ∧
    encodeToken [normalizeDigits100 w] w true = UNK_ID := by
  have hne : normalizeDigits100 w ≠ normalizeDigits0 w := by
    intro he
    have h2 := congrArg (fun s => s.data.length) he
    simp only [normalizeDigits100, normalizeDigits0, List.length_map] at h2
    have h4 := digitRepl_length_lt w.data hd
    omega
  refine ⟨hne, ?_⟩
  simp [encodeToken, vocabGet, hne]

/-- C3 witness: the token a1 contains a digit; its vocabulary form a100
differs from its lookup form a0, and looking a1 up in a vocabulary
holding only a100 yields the unknown id. -/
theorem c3_inconsistent_digit_normalization_witness :
    normalizeDigits100 "a1" ≠ normalizeDigits0 "a1" ∧
    encodeToken [normalizeDigits100 "a1"] "a1" true = UNK_ID :=
  c3_inconsistent_digit_normalization "a1" (by decide)

/-- C4: tokenizing the sentence what-is-the-meaning-of-life? yields
exactly the seven tokens, with the question mark split off as its own
token. -/
theorem c4_tokenize_example :
    basic_tokenizer "what is the meaning of life?" =
      TokenizerResult.words ["what", "is", "the", "meaning", "of", "life", "?"] := by decide

/-- C5: for any input whose stripped form is the exact literal
breakHerePlease, the tokenizer bypasses normal splitting and returns the
stripped literal unchanged, and the encoding step passes it through as a
one-element sequence containing the literal string, for every vocabulary
and either digit-normalization setting. -/
theorem c5_sentinel_passthrough (s : String) (vocabulary : List String) (b : Bool)
    (h : pyStrip s = "breakHerePlease") :
    basic_tokenizer s = TokenizerResult.sentinel "breakHerePlease" ∧
    sentence_to_token_ids s vocabulary none b = [PyTok.str "breakHerePlease"] := by
  have ht : basic_tokenizer s = TokenizerResult.sentinel "breakHerePlease" := by
    unfold basic_tokenizer
    simp [h]
  refine ⟨ht, ?_⟩
  unfold sentence_to_token_ids
  simp [ht]

/-- C5 witness: a whitespace-surrounded sentinel input passes through as
the one-element sequence holding the literal. -/
theorem c5_sentinel_passthrough_witness :
    basic_tokenizer " breakHerePlease  " = TokenizerResult.sentinel "breakHerePlease" ∧
    sentence_to_token_ids " breakHerePlease  " [] none true = [PyTok.str "breakHerePlease"] :=
  c5_sentinel_passthrough " breakHerePlease  " [] true (by decide)

/-- C10: the per-line call made by `data_to_token_ids` under its default
`normalize_digits=False` (which lands positionally in the tokenizer slot,
leaving `sentence_to_token_ids` with its own default
`normalize_digits=True`) encodes every non-sentinel line with digit
normalization applied: each token is looked up under its 0-normalized
form, so the False flag has no effect on the output. -/
theorem c10_flag_shadowed_by_tokenizer_slot (line : String) (vocabulary : List String)
    (ws : List String) (htok : basic_tokenizer line = TokenizerResult.words ws) :
    data_to_token_ids_line line vocabulary =
      ws.map (fun w => PyTok.id ((vocabGet vocabulary (normalizeDigits0 w)).getD UNK_ID)) := by
  unfold data_to_token_ids_line sentence_to_token_ids encodeToken
  simp [htok]

/-- C10 witness: the line a1-space-b is written as the ids of a0 and b
even though data_to_token_ids was called with normalize_digits=False. -/
theorem c10_flag_shadowed_by_tokenizer_slot_witness :
    data_to_token_ids_line "a1 b" ["a0"] = [PyTok.id 0, PyTok.id UNK_ID] :=
  (c10_flag_shadowed_by_tokenizer_slot "a1 b" ["a0"] ["a1", "b"] (by decide)).trans (by decide)

/-- C1 counterexample: with the default digit normalization of
`sentence_to_token_ids`, the token a1 is present in the loaded vocabulary
(at id 4) yet encodes to `UNK_ID` = 3, whose reverse-vocabulary entry is
the unknown symbol, not a1 — so a vocabulary-present token fails to
round-trip as the claim states. -/
theorem c1_counterexample :
    initialize_vocabulary [("v", ["_PAD", "_GO", "_EOS", "_UNK", "a1"])] "v" =
      Except.ok ["_PAD", "_GO", "_EOS", "_UNK", "a1"] ∧
    "a1" ∈ ["_PAD", "_GO", "_EOS", "_UNK", "a1"] ∧
    sentence_to_token_ids "a1" ["_PAD", "_GO", "_EOS", "_UNK", "a1"] none true =
      [PyTok.id UNK_ID] ∧
    ["_PAD", "_GO", "_EOS", "_UNK", "a1"][UNK_ID]? = some "_UNK" ∧
    ("_UNK" : String) ≠ "a1" := ⟨rfl, by decide⟩

/-- C1 (amended): for every sentence whose tokenization is a normal word
list, the encoding maps each token through the 0-normalized vocabulary
lookup; for every digit-free token this round-trips: a token present in
the loaded vocabulary maps to an id whose reverse-vocabulary entry is that
token, and a token absent from it maps to `UNK_ID` = 3. -/
theorem c1_roundtrip_digit_free (vocabulary : List String) (s : String)
    (ws : List String) (htok : basic_tokenizer s = TokenizerResult.words ws) :
    sentence_to_token_ids s vocabulary none true =
      ws.map (fun w => PyTok.id (encodeToken vocabulary w true)) ∧
    ∀ w, w ∈ ws → w.data.all (fun c => !c.isDigit) = true →
      ((w ∈ vocabulary → ∃ i, encodeToken vocabulary w true = i ∧ vocabulary[i]? = some w) ∧
       (w ∉ vocabulary → encodeToken vocabulary w true = UNK_ID)) := by
  constructor
  · unfold sentence_to_token_ids
    simp [htok]
  · intro w _ hnd
    have h0 : normalizeDigits0 w = w := normalizeDigits0_eq_self w hnd
    constructor
    · intro hmem
      obtain ⟨i, hi⟩ := vocabGet_mem vocabulary w hmem
      refine ⟨i, ?_, vocabGet_getElem? vocabulary w i hi⟩
      simp [encodeToken, h0, hi]
    · intro hmem
      simp [encodeToken, h0, vocabGet_eq_none vocabulary w hmem]

/-- C1 witness: on the sentence dog-space-zzz against a vocabulary
holding dog, the theorem instantiates concretely: dog (present) encodes
to id 4 whose reverse entry is dog, and zzz (absent) encodes to 3. -/
theorem c1_roundtrip_digit_free_witness :
    (sentence_to_token_ids "dog zzz" ["_PAD", "_GO", "_EOS", "_UNK", "dog"] none true =
      ["dog", "zzz"].map
        (fun w => PyTok.id (encodeToken ["_PAD", "_GO", "_EOS", "_UNK", "dog"] w true))) ∧
    (∃ i, encodeToken ["_PAD", "_GO", "_EOS", "_UNK", "dog"] "dog" true = i ∧
      ["_PAD", "_GO", "_EOS", "_UNK", "dog"][i]? = some "dog") ∧
    encodeToken ["_PAD", "_GO", "_EOS", "_UNK", "dog"] "zzz" true = UNK_ID :=
  ⟨(c1_roundtrip_digit_free ["_PAD", "_GO", "_EOS", "_UNK", "dog"] "dog zzz"
      ["dog", "zzz"] (by decide)).1,
   ((c1_roundtrip_digit_free ["_PAD", "_GO", "_EOS", "_UNK", "dog"] "dog zzz"
      ["dog", "zzz"] (by decide)).2 "dog" (by decide) (by decide)).1 (by decide),
   ((c1_roundtrip_digit_free ["_PAD", "_GO", "_EOS", "_UNK", "dog"] "dog zzz"
      ["dog", "zzz"] (by decide)).2 "zzz" (by decide) (by decide)).2 (by decide)⟩

theorem take4_START_VOCAB_append (rest : List String) :
    (START_VOCAB ++ rest).take 4 = START_VOCAB := by
  have h4 : START_VOCAB.length = 4 := rfl
  rw [← h4, List.take_left]

theorem create_vocab_list_length_le (lines : List String) (max_vocabulary_size : Nat)
    (normalize_digits : Bool) :
    (create_vocab_list lines max_vocabulary_size normalize_digits).length ≤
      max_vocabulary_size := by
  unfold create_vocab_list
  by_cases h : max_vocabulary_size <
      (START_VOCAB ++ (sortByCountDesc (countCorpus lines normalize_digits)).map Prod.fst).length
  · rw [if_pos h]
    simp [List.length_take]
  · rw [if_neg h]
    omega

theorem create_vocab_list_take4 (lines : List String) (max_vocabulary_size : Nat)
    (normalize_digits : Bool) (hm : 4 ≤ max_vocabulary_size) :
    (create_vocab_list lines max_vocabulary_size normalize_digits).take 4 = START_VOCAB := by
  unfold create_vocab_list
  by_cases h : max_vocabulary_size <
      (START_VOCAB ++ (sortByCountDesc (countCorpus lines normalize_digits)).map Prod.fst).length
  · rw [if_pos h, List.take_take, Nat.min_eq_left hm, take4_START_VOCAB_append]
  · rw [if_neg h, take4_START_VOCAB_append]

/-- C2 counterexample: with a cap of 2 (the claim quantifies over every
configured cap) the truncation cuts into the reserved symbols: the
written vocabulary file holds only the first two of them, so ids 0..3 are
not PAD, GO, EOS, UNKNOWN. -/
theorem c2_counterexample :
    create_vocabulary [("d", [])] "v" "d" 2 true =
      some [("v", ["_PAD", "_GO"]), ("vcomplete", []), ("d", [])] ∧
    (["_PAD", "_GO"].take 4 ≠ START_VOCAB) := by decide

/-- C2 (amended): for every corpus and every cap of at least 4, the
vocabulary file written by `create_vocabulary` contains at most the cap
many entries, and its first four entries (ids 0..3) are PAD, GO, EOS,
UNKNOWN in that order, regardless of corpus content; for caps below 4 the
truncation cuts into the reserved symbols. -/
theorem c2_cap_and_reserved_prefix (fs : FS) (vocabulary_path data_path : String)
    (max_vocabulary_size : Nat) (normalize_digits : Bool) (lines : List String)
    (hv : fsExists fs vocabulary_path = false) (hd : fsRead fs data_path = some lines)
    (hm : 4 ≤ max_vocabulary_size) :
    ∃ fs2, create_vocabulary fs vocabulary_path data_path max_vocabulary_size
        normalize_digits = some fs2 ∧
      fsRead fs2 vocabulary_path =
        some (create_vocab_list lines max_vocabulary_size normalize_digits) ∧
      (create_vocab_list lines max_vocabulary_size normalize_digits).length ≤
        max_vocabulary_size ∧
      (create_vocab_list lines max_vocabulary_size normalize_digits).take 4 =
        START_VOCAB := by
  have hstep : create_vocabulary fs vocabulary_path data_path max_vocabulary_size
      normalize_digits =
      some (fsWrite (fsWrite fs (vocabulary_path ++ "complete")
        ((sortByCountDesc (countCorpus lines normalize_digits)).map
          (fun p => p.1 ++ ":" ++ toString p.2)))
        vocabulary_path (create_vocab_list lines max_vocabulary_size normalize_digits)) := by
    unfold create_vocabulary
    rw [hd]
    simp [hv]
  refine ⟨_, hstep, ?_, create_vocab_list_length_le lines max_vocabulary_size normalize_digits,
    create_vocab_list_take4 lines max_vocabulary_size normalize_digits hm⟩
  simp [fsRead, fsWrite]

/-- C2 witness: a one-line corpus with cap 5 produces a vocabulary file
whose first four entries are the reserved symbols and whose length is
within the cap. -/
theorem c2_cap_and_reserved_prefix_witness :
    ∃ fs2, create_vocabulary [("d", ["b b a"])] "v" "d" 5 true = some fs2 ∧
      fsRead fs2 "v" = some (create_vocab_list ["b b a"] 5 true) ∧
      (create_vocab_list ["b b a"] 5 true).length ≤ 5 ∧
      (create_vocab_list ["b b a"] 5 true).take 4 = START_VOCAB :=
  c2_cap_and_reserved_prefix [("d", ["b b a"])] "v" "d" 5 true ["b b a"]
    (by decide) (by decide) (by decide)

/-- C6: `create_vocabulary` is idempotent with respect to an existing
artifact: when a vocabulary file already exists at `vocabulary_path` the
call returns the file system unchanged (building is skipped entirely),
and consequently building twice at the same path is a no-op the second
time. -/
theorem c6_create_vocabulary_idempotent (fs : FS) (vocabulary_path data_path : String)
    (max_vocabulary_size : Nat) (normalize_digits : Bool) :
    (fsExists fs vocabulary_path = true →
      create_vocabulary fs vocabulary_path data_path max_vocabulary_size
        normalize_digits = some fs) ∧
    (∀ fs2, create_vocabulary fs vocabulary_path data_path max_vocabulary_size
        normalize_digits = some fs2 →
      create_vocabulary fs2 vocabulary_path data_path max_vocabulary_size
        normalize_digits = some fs2) := by
  constructor
  · intro h
    unfold create_vocabulary
    simp [h]
  · intro fs2 h
    unfold create_vocabulary at h ⊢
    cases hex : fsExists fs vocabulary_path with
    | true =>
      rw [hex] at h
      simp at h
      subst h
      simp [hex]
    | false =>
      rw [hex] at h
      simp at h
      cases hr : fsRead fs data_path with
      | none =>
        rw [hr] at h
        simp at h
      | some lines =>
        rw [hr] at h
        simp at h
        have hex2 : fsExists fs2 vocabulary_path = true := by
          rw [← h]
          simp [fsWrite, fsExists]
        simp [hex2]

/-- C6 witness: calling `create_vocabulary` on a file system that already
holds the vocabulary file returns it unchanged. -/
theorem c6_create_vocabulary_idempotent_witness :
    create_vocabulary [("v", ["x"])] "v" "d" 10 true = some [("v", ["x"])] :=
  (c6_create_vocabulary_idempotent [("v", ["x"])] "v" "d" 10 true).1 (by decide)

/-- C7: loading a vocabulary fails if and only if the vocabulary file is
missing: for a missing path `initialize_vocabulary` raises the ValueError
naming that path, for an existing path it returns the reversed vocabulary
without raising, and `data_to_token_ids` (which loads the vocabulary
first, when its target does not already exist) propagates the same
error. -/
theorem c7_vocabulary_not_found (fs : FS) (vocabulary_path : String) :
    (fsExists fs vocabulary_path = false →
      initialize_vocabulary fs vocabulary_path =
        Except.error (PyError.valueError "Vocabulary file %s not found." vocabulary_path)) ∧
    (fsExists fs vocabulary_path = true →
      ∃ rev_vocab, initialize_vocabulary fs vocabulary_path = Except.ok rev_vocab) ∧
    (∀ data_path target_path, fsExists fs target_path = false →
      fsExists fs vocabulary_path = false →
      data_to_token_ids fs data_path target_path vocabulary_path false =
        Except.error (PyError.valueError "Vocabulary file %s not found." vocabulary_path)) := by
  refine ⟨?_, ?_, ?_⟩
  · intro h
    have hr : fsRead fs vocabulary_path = none := (fsRead_eq_none_iff fs vocabulary_path).mpr h
    unfold initialize_vocabulary
    rw [hr]
  · intro h
    cases hr : fsRead fs vocabulary_path with
    | none =>
      rw [(fsRead_eq_none_iff fs vocabulary_path).mp hr] at h
      cases h
    | some lines =>
      exact ⟨lines.map pyStrip, by unfold initialize_vocabulary; rw [hr]⟩
  · intro data_path target_path ht hv
    have hr : fsRead fs vocabulary_path = none := (fsRead_eq_none_iff fs vocabulary_path).mpr hv
    unfold data_to_token_ids initialize_vocabulary
    rw [hr]
    simp [ht]

/-- C7 witness: on the empty file system, loading the vocabulary and the
token-id conversion both fail with the ValueError naming the missing
vocabulary path. -/
theorem c7_vocabulary_not_found_witness :
    initialize_vocabulary [] "v" =
      Except.error (PyError.valueError "Vocabulary file %s not found." "v") ∧
    data_to_token_ids [] "d" "t" "v" false =
      Except.error (PyError.valueError "Vocabulary file %s not found." "v") :=
  ⟨(c7_vocabulary_not_found [] "v").1 (by decide),
   (c7_vocabulary_not_found [] "v").2.2 "d" "t" (by decide) (by decide)⟩

/-- C8: `create_model` follows a fixed three-way restore policy: a truthy
explicit restore path is always restored from (never falling back to
fresh parameters, whatever the file system holds); otherwise an existing
checkpoint with an existing checkpoint file is restored from; otherwise
parameters are freshly initialized — and every call takes exactly one of
the three actions. -/
theorem c8_restore_policy (restore_model : Option String) (fs : FS)
    (ckpt : Option String) :
    (∀ p, restore_model = some p → p ≠ "" →
      create_model_action restore_model fs ckpt = InitAction.restoreFrom p) ∧
    (pyTruthyStr restore_model = false → ∀ cp, ckpt = some cp → fsExists fs cp = true →
      create_model_action restore_model fs ckpt = InitAction.restoreCheckpoint cp) ∧
    (pyTruthyStr restore_model = false →
      (∀ cp, ckpt = some cp → fsExists fs cp = false) →
      create_model_action restore_model fs ckpt = InitAction.freshInit) ∧
    ((∃ p, create_model_action restore_model fs ckpt = InitAction.restoreFrom p) ∨
     (∃ p, create_model_action restore_model fs ckpt = InitAction.restoreCheckpoint p) ∨
     create_model_action restore_model fs ckpt = InitAction.freshInit) := by
  refine ⟨?_, ?_, ?_, ?_⟩
  · intro p hp hne
    subst hp
    unfold create_model_action
    simp [pyTruthyStr, hne]
  · intro hf cp hc hex
    subst hc
    unfold create_model_action
    rw [hf]
    simp [hex]
  · intro hf hnone
    unfold create_model_action
    rw [hf]
    simp only [Bool.false_eq_true, if_false]
    cases hc : ckpt with
    | none => rfl
    | some cp => simp [hnone cp hc]
  · unfold create_model_action
    by_cases ht : pyTruthyStr restore_model = true
    · left
      exact ⟨restore_model.getD "", by simp [ht]⟩
    · rw [Bool.not_eq_true] at ht
      rw [ht]
      simp only [Bool.false_eq_true, if_false]
      cases ckpt with
      | none => right; right; rfl
      | some cp =>
        by_cases hex : fsExists fs cp = true
        · right; left; exact ⟨cp, by simp [hex]⟩
        · rw [Bool.not_eq_true] at hex
          right; right; simp [hex]

/-- C8 witness: with an explicit restore path configured, the action is a
restore from that path even though the file system is empty. -/
theorem c8_restore_policy_witness :
    create_model_action (some "m") [] none = InitAction.restoreFrom "m" :=
  (c8_restore_policy (some "m") [] none).1 "m" rfl (by decide)

/-- C9: a request arriving before the model instance is loaded gets the
distinct 418 not-ready abort (issued before the try block, hence neither
an unhandled exception nor the generic 500 path), and once the model is
loaded no request can reach any abort at all: the handler returns either
the 200 response or the 500 response of the bare except clause. -/
theorem c9_not_ready_418 (reqJson : Option (List (String × String)))
    (respond : String → Except String String) :
    generate_response none reqJson = Resp.abort 418 ∧
    (∀ code, generate_response (some respond) reqJson ≠ Resp.abort code) := by
  constructor
  · rfl
  · intro code h
    cases reqJson with
    | none => simp [generate_response] at h
    | some j =>
      by_cases hj : j.isEmpty = true
      · simp [generate_response, hj] at h
      · cases hg : jsonGet j "message" with
        | none => simp [generate_response, hj, hg] at h
        | some msg =>
          cases hr : respond msg with
          | ok r => simp [generate_response, hj, hg, hr] at h
          | error e => simp [generate_response, hj, hg, hr] at h
